import Mathlib

/-
Verification of the synthetic NMR-permeability data generator
(`data_generator.py`, class `NMRDataGenerator`).

Modelling conventions:
* Python floats are modelled as rationals (ℚ).  Operations a rational
  field cannot express exactly (the lognormal sampling transform,
  `x ** 4.4`, `10 ** x`, `log`, `exp`) are abstracted into a `FloatOps`
  record of arbitrary rational functions; theorems quantify over it, so
  they hold for whatever values the floating-point routines produce.
* `np.random`'s global Mersenne-Twister stream is modelled explicitly:
  a seed determines an infinite sequence of raw draws in [0,1)
  (`streamOf : ℤ → ℕ → ℚ`), and the global state is the remaining
  stream (`ℕ → ℚ`).  `np.random.seed s` replaces the state by
  `streamOf s`; each vectorized sampling call consumes one block of
  `n_samples` raw draws, blocks in program order.
* `pandas.DataFrame` rows become a `List Sample`; a raised Python
  exception becomes `Except.error`.
-/

/-- Model of floating-point primitives the generator uses but a rational
field cannot express exactly.  `lognormal mu sigma u` is the value
`np.random.lognormal(mu, sigma)` produces from the raw draw `u`;
`pow44 x` models `x ** 4.4`; `pow10 x` models `10.0 ** x`;
`ln` models `np.log`; `fexp` models `np.exp`. -/
structure FloatOps where
  lognormal : ℚ → ℚ → ℚ → ℚ
  pow44 : ℚ → ℚ
  pow10 : ℚ → ℚ
  ln : ℚ → ℚ
  fexp : ℚ → ℚ

/-- `np.random.uniform(a, b)` applied to the raw draw `u ∈ [0,1)`:
`a + (b - a) * u`. -/
def uniformDraw (a b u : ℚ) : ℚ := a + (b - a) * u

/-- `np.clip(x, lo, hi) = min(max(x, lo), hi)`. -/
def clip (x lo hi : ℚ) : ℚ := min (max x lo) hi

/-- The `i`-th of `np.linspace(a, b, num)`: `a + i * (b - a) / (num - 1)`.
For `num = 1` the rational convention `x / 0 = 0` yields `a`, matching
numpy's `linspace(a, b, 1) = [a]`. -/
def linspaceVal (a b : ℚ) (num i : ℕ) : ℚ := a + i * (b - a) / ((num : ℚ) - 1)

/-- `np.linspace(a, b, num)` as a list. -/
def linspace (a b : ℚ) (num : ℕ) : List ℚ :=
  (List.range num).map (linspaceVal a b num)

/-- Raw draw consumed for sample `i` by the `block`-th vectorized
sampling call of `generate_nmr_permeability_data` (each call consumes a
block of `n` raw draws from the stream `u`). -/
def drawAt (u : ℕ → ℚ) (n block i : ℕ) : ℚ := u (block * n + i)

/-- Line 23: `porosity = np.random.uniform(0.05, 0.35, n)` (block 0). -/
def porosityAt (u : ℕ → ℚ) (n i : ℕ) : ℚ :=
  uniformDraw (1/20) (7/20) (drawAt u n 0 i)

/-- Lines 26-27: `t2_gm = np.clip(np.random.lognormal(np.log(100), 0.8, n), 10, 1000)`
(block 1). -/
def t2At (ops : FloatOps) (u : ℕ → ℚ) (n i : ℕ) : ℚ :=
  clip (ops.lognormal (ops.ln 100) (4/5) (drawAt u n 1 i)) 10 1000

/-- Line 30: `bfv = porosity * np.random.uniform(0.2, 0.6, n)` (block 2). -/
def bfvAt (u : ℕ → ℚ) (n i : ℕ) : ℚ :=
  porosityAt u n i * uniformDraw (1/5) (3/5) (drawAt u n 2 i)

/-- Line 33: `ffi = porosity - bfv`. -/
def ffiAt (u : ℕ → ℚ) (n i : ℕ) : ℚ := porosityAt u n i - bfvAt u n i

/-- Line 36: `clay_volume = np.random.uniform(0, 0.3, n)` (block 3). -/
def clayAt (u : ℕ → ℚ) (n i : ℕ) : ℚ :=
  uniformDraw 0 (3/10) (drawAt u n 3 i)

/-- Line 40: `base_perm = (porosity ** 4) * (ffi / bfv) ** 2 * 10000`. -/
def basePermAt (u : ℕ → ℚ) (n i : ℕ) : ℚ :=
  (porosityAt u n i) ^ 4 * (ffiAt u n i / bfvAt u n i) ^ 2 * 10000

/-- Lines 41-43: `core_permeability = np.clip(base_perm * np.random.lognormal(0, 0.3, n), 0.01, 10000)`
(noise is block 4). -/
def corePermAt (ops : FloatOps) (u : ℕ → ℚ) (n i : ℕ) : ℚ :=
  clip (basePermAt u n i * ops.lognormal 0 (3/10) (drawAt u n 4 i)) (1/100) 10000

/-- Line 48: `coates_perm = (porosity ** 4) * (ffi / bfv) ** 2 * 10000`
(the Coates base expression, written in the source independently of line 40). -/
def coatesBaseAt (u : ℕ → ℚ) (n i : ℕ) : ℚ :=
  (porosityAt u n i) ^ 4 * (ffiAt u n i / bfvAt u n i) ^ 2 * 10000

/-- Lines 49-50: `coates_perm = np.clip(coates_perm * np.random.lognormal(0, 0.15, n), 0.01, 10000)`
(noise is block 5). -/
def coatesPermAt (ops : FloatOps) (u : ℕ → ℚ) (n i : ℕ) : ℚ :=
  clip (coatesBaseAt u n i * ops.lognormal 0 (3/20) (drawAt u n 5 i)) (1/100) 10000

/-- Lines 53-55: `timur_coates_perm = np.clip(0.136 * (porosity ** 4.4) / (bfv ** 2) * 10000 * np.random.lognormal(0, 0.2, n), 0.01, 10000)`
(noise is block 6); `0.136 = 17/125`. -/
def timurPermAt (ops : FloatOps) (u : ℕ → ℚ) (n i : ℕ) : ℚ :=
  clip ((17/125) * ops.pow44 (porosityAt u n i) / (bfvAt u n i) ^ 2 * 10000
        * ops.lognormal 0 (1/5) (drawAt u n 6 i)) (1/100) 10000

/-- Lines 58-60: `sdr_perm = np.clip(4 * (porosity ** 4) * (t2_gm ** 2) * np.random.lognormal(0, 0.18, n), 0.01, 10000)`
(noise is block 7). -/
def sdrPermAt (ops : FloatOps) (u : ℕ → ℚ) (n i : ℕ) : ℚ :=
  clip (4 * (porosityAt u n i) ^ 4 * (t2At ops u n i) ^ 2
        * ops.lognormal 0 (9/50) (drawAt u n 7 i)) (1/100) 10000

/-- One row of the DataFrame built at lines 63-74. -/
structure Sample where
  depth_m : ℚ
  porosity : ℚ
  t2_gm_ms : ℚ
  bfv : ℚ
  ffi : ℚ
  clay_volume : ℚ
  core_permeability_mD : ℚ
  coates_permeability_mD : ℚ
  timur_coates_permeability_mD : ℚ
  sdr_permeability_mD : ℚ
deriving DecidableEq

/-- Row `i` of the DataFrame returned by `generate_nmr_permeability_data`
for a run of `n` samples reading raw draws from the stream `u`
(`Depth_m = np.linspace(2000, 2500, n)`, line 64). -/
def mkSample (ops : FloatOps) (u : ℕ → ℚ) (n i : ℕ) : Sample where
  depth_m := linspaceVal 2000 2500 n i
  porosity := porosityAt u n i
  t2_gm_ms := t2At ops u n i
  bfv := bfvAt u n i
  ffi := ffiAt u n i
  clay_volume := clayAt u n i
  core_permeability_mD := corePermAt ops u n i
  coates_permeability_mD := coatesPermAt ops u n i
  timur_coates_permeability_mD := timurPermAt ops u n i
  sdr_permeability_mD := sdrPermAt ops u n i

/-- `generate_nmr_permeability_data` (lines 17-76) as a pure function of
the raw-draw stream `u` available when the call starts. -/
def generateRun (ops : FloatOps) (u : ℕ → ℚ) (n : ℕ) : List Sample :=
  (List.range n).map (mkSample ops u n)

/-- The object state set by `__init__` (line 14): just `n_samples`. -/
structure Generator where
  n_samples : ℕ
deriving DecidableEq

/-- `__init__(n_samples, random_seed)` (lines 13-15): stores `n_samples`
and calls `np.random.seed(random_seed)`, which discards the incoming
global stream `g` and replaces it by the stream determined by the seed. -/
def initGenerator (streamOf : ℤ → ℕ → ℚ) (n : ℕ) (seed : ℤ) (_g : ℕ → ℚ) :
    Generator × (ℕ → ℚ) :=
  (⟨n⟩, streamOf seed)

/-- A call `self.generate_nmr_permeability_data()`: returns the dataset
computed from the current global stream and advances the stream past the
8 consumed blocks of `n_samples` raw draws. -/
def generateData (ops : FloatOps) (gen : Generator) (g : ℕ → ℚ) :
    List Sample × (ℕ → ℚ) :=
  (generateRun ops g gen.n_samples, fun i => g (8 * gen.n_samples + i))

/-- The loop body of `generate_well_data` (lines 131-135), iterating the
well index `i` over `k` remaining wells: each iteration executes
`np.random.seed(42 + i)` and then `generate_nmr_permeability_data()`. -/
def wellLoop (ops : FloatOps) (streamOf : ℤ → ℕ → ℚ) (gen : Generator) :
    ℕ → ℕ → (ℕ → ℚ) → List (String × List Sample) × (ℕ → ℚ)
  | 0, _, g => ([], g)
  | Nat.succ k, i, _g =>
      let g1 := streamOf (42 + (i : ℤ))
      let p := generateData ops gen g1
      let rest := wellLoop ops streamOf gen k (i + 1) p.2
      (("Well_" ++ toString i, p.1) :: rest.1, rest.2)

/-- `generate_well_data(n_wells)` (lines 128-137): the loop starts at
well index 1. -/
def generate_well_data (ops : FloatOps) (streamOf : ℤ → ℕ → ℚ)
    (gen : Generator) (n_wells : ℕ) (g : ℕ → ℚ) :
    List (String × List Sample) × (ℕ → ℚ) :=
  wellLoop ops streamOf gen n_wells 1 g

/-- The spec's error taxonomy (`DomainError`); in the Python source the
corresponding raised exception is numpy's `ValueError`. -/
inductive DomainError where
  | domainError
deriving DecidableEq

/-- `np.max` over a list: raises (`none`) on an empty array, otherwise
the left fold of `max`. -/
def npMax : List ℚ → Option ℚ
  | [] => none
  | x :: xs => some (xs.foldl max x)

/-- The unnormalized amplitude at time `t` (lines 86-89):
`0.3 * exp(-((ln t - ln 3)^2) / (2*0.5^2)) + 0.7 * exp(-((ln t - ln 200)^2) / (2*0.8^2))`. -/
def t2AmplitudeAt (ops : FloatOps) (t : ℚ) : ℚ :=
  3/10 * ops.fexp (-((ops.ln t - ops.ln 3) ^ 2) / (2 * (1/2 : ℚ) ^ 2))
  + 7/10 * ops.fexp (-((ops.ln t - ops.ln 200) ^ 2) / (2 * (4/5 : ℚ) ^ 2))

/-- `generate_t2_distribution(n_bins)` (lines 78-92).
`np.logspace(-1, 4, n_bins)` raises a `ValueError` for a negative count;
with `n_bins = 0` the arrays are empty and `np.max` of an empty array
raises a `ValueError` at the normalization step (line 90).  Both raised
errors realize the spec's `DomainError`. -/
def generate_t2_distribution (ops : FloatOps) (n_bins : ℤ) :
    Except DomainError (List ℚ × List ℚ) :=
  if n_bins < 0 then .error .domainError
  else
    let t2_times := (linspace (-1) 4 n_bins.toNat).map ops.pow10
    let amplitudes := t2_times.map (t2AmplitudeAt ops)
    match npMax amplitudes with
    | none => .error .domainError
    | some m => .ok (t2_times, amplitudes.map (· / m))

/-- One entry of the statistics dict built at lines 120-124. -/
structure ModelStats where
  correlation : ℚ
  rmse_log : ℚ
  mape : ℚ
deriving DecidableEq

/-- `np.mean` of a list (on an empty list numpy yields NaN with a
warning and does not raise; the rational convention `x / 0 = 0` stands
in for that junk value — only raise/no-raise behaviour is claimed). -/
def npMean (l : List ℚ) : ℚ := l.sum / l.length

/-- The metrics for one model (lines 99-118): Pearson correlation of the
log10 columns, RMSE in log space, and MAPE.  `log10` and `sqrtQ` model
the float routines `np.log10` and `np.sqrt`. -/
def statsFor (log10 sqrtQ : ℚ → ℚ) (core pred : List ℚ) : ModelStats :=
  let lc := core.map log10
  let lp := pred.map log10
  let corr := (npMean (List.zipWith (· * ·) lc lp) - npMean lc * npMean lp) /
      (sqrtQ (npMean (lc.map (· ^ 2)) - npMean lc ^ 2) *
       sqrtQ (npMean (lp.map (· ^ 2)) - npMean lp ^ 2))
  let rmse := sqrtQ (npMean (List.zipWith (fun a b => (a - b) ^ 2) lc lp))
  let mape := npMean (List.zipWith (fun c p => |(c - p) / c|) core pred) * 100
  ⟨corr, rmse, mape⟩

/-- `calculate_statistics(data)` (lines 94-126).  The source body
contains no `raise` and no input validation, and every numpy operation
it uses is total (NaN/inf with warnings on degenerate input), so the
embedding always returns `Except.ok`. -/
def calculate_statistics (log10 sqrtQ : ℚ → ℚ) (data : List Sample) :
    Except DomainError (List (String × ModelStats)) :=
  .ok [("Coates",
          statsFor log10 sqrtQ (data.map Sample.core_permeability_mD)
            (data.map Sample.coates_permeability_mD)),
       ("Timur_Coates",
          statsFor log10 sqrtQ (data.map Sample.core_permeability_mD)
            (data.map Sample.timur_coates_permeability_mD)),
       ("SDR",
          statsFor log10 sqrtQ (data.map Sample.core_permeability_mD)
            (data.map Sample.sdr_permeability_mD))]

/-- Concrete float-primitive model used by witnesses and
counterexamples: any rational functions are admissible, these are chosen
so `pow10` is strictly monotone with `pow10 (-1) = 1/10`,
`pow10 4 = 10000`, and `fexp` is positive everywhere. -/
def ops0 : FloatOps where
  lognormal := fun _ _ u => 1 + u
  pow44 := fun x => x ^ 4
  pow10 := fun x => 1/10 + (x + 1) * (99999/50)
  ln := fun x => x
  fexp := fun x => 1 / (1 + x ^ 2)

/-- Concrete raw-draw stream for witnesses: constantly 1/2 ∈ [0,1). -/
def u0 : ℕ → ℚ := fun _ => 1/2

/-- Concrete seed-to-stream model for counterexamples: seed 1 yields the
constant stream 1/3, every other seed the constant stream 1/7; all
values lie in [0,1). -/
def streamOf0 : ℤ → ℕ → ℚ := fun s _ => if s = 1 then 1/3 else 1/7

/-- Concrete initial global stream (constantly 0 ∈ [0,1)). -/
def zeroStream : ℕ → ℚ := fun _ => 0

/-! Helper lemmas. -/

theorem clip_le_hi (x lo hi : ℚ) : clip x lo hi ≤ hi := min_le_right _ _

theorem lo_le_clip (x lo hi : ℚ) (h : lo ≤ hi) : lo ≤ clip x lo hi :=
  le_min (le_trans (le_max_right x lo) (le_refl _)) h

theorem mem_generateRun {ops : FloatOps} {u : ℕ → ℚ} {n : ℕ} {s : Sample}
    (hs : s ∈ generateRun ops u n) : ∃ i, i < n ∧ s = mkSample ops u n i := by
  simp only [generateRun, List.mem_map, List.mem_range] at hs
  obtain ⟨i, hi, rfl⟩ := hs
  exact ⟨i, hi, rfl⟩

/-- Claim C6: every permeability field of every generated sample lies in
the closed interval [0.01, 10000], for every float-primitive model and
every raw-draw stream, because each field is the result of
`np.clip(·, 0.01, 10000)`. -/
theorem C6_permeability_fields_clipped (ops : FloatOps) (u : ℕ → ℚ) (n : ℕ) :
    ∀ s ∈ generateRun ops u n,
      (1/100 ≤ s.core_permeability_mD ∧ s.core_permeability_mD ≤ 10000) ∧
      (1/100 ≤ s.coates_permeability_mD ∧ s.coates_permeability_mD ≤ 10000) ∧
      (1/100 ≤ s.timur_coates_permeability_mD ∧ s.timur_coates_permeability_mD ≤ 10000) ∧
      (1/100 ≤ s.sdr_permeability_mD ∧ s.sdr_permeability_mD ≤ 10000) := by
  intro s hs
  obtain ⟨i, hi, rfl⟩ := mem_generateRun hs
  refine ⟨⟨lo_le_clip _ _ _ (by norm_num), clip_le_hi _ _ _⟩,
          ⟨lo_le_clip _ _ _ (by norm_num), clip_le_hi _ _ _⟩,
          ⟨lo_le_clip _ _ _ (by norm_num), clip_le_hi _ _ _⟩,
          ⟨lo_le_clip _ _ _ (by norm_num), clip_le_hi _ _ _⟩⟩

/-- Witness for C6 at `n = 1` with the concrete stream `u0`. -/
theorem C6_witness :
    mkSample ops0 u0 1 0 ∈ generateRun ops0 u0 1 ∧
    ((1/100 ≤ (mkSample ops0 u0 1 0).core_permeability_mD ∧
        (mkSample ops0 u0 1 0).core_permeability_mD ≤ 10000) ∧
     (1/100 ≤ (mkSample ops0 u0 1 0).coates_permeability_mD ∧
        (mkSample ops0 u0 1 0).coates_permeability_mD ≤ 10000) ∧
     (1/100 ≤ (mkSample ops0 u0 1 0).timur_coates_permeability_mD ∧
        (mkSample ops0 u0 1 0).timur_coates_permeability_mD ≤ 10000) ∧
     (1/100 ≤ (mkSample ops0 u0 1 0).sdr_permeability_mD ∧
        (mkSample ops0 u0 1 0).sdr_permeability_mD ≤ 10000)) :=
  ⟨List.mem_singleton_self _,
   C6_permeability_fields_clipped ops0 u0 1 _ (List.mem_singleton_self _)⟩

/-- Claim C5: for every generated sample, `bfv ≤ porosity`, the free
fluid index equals `porosity - bfv`, and it is nonnegative; holds for
every raw-draw stream with values in [0,1) (numpy's `uniform` draws are
half-open). -/
theorem C5_bfv_le_porosity (ops : FloatOps) (u : ℕ → ℚ) (n : ℕ)
    (hu : ∀ i, 0 ≤ u i ∧ u i < 1) :
    ∀ s ∈ generateRun ops u n,
      s.bfv ≤ s.porosity ∧ s.ffi = s.porosity - s.bfv ∧ 0 ≤ s.ffi := by
  intro s hs
  obtain ⟨i, hi, rfl⟩ := mem_generateRun hs
  have h0 := hu (0 * n + i)
  have h2 := hu (2 * n + i)
  refine ⟨?_, rfl, ?_⟩
  · show bfvAt u n i ≤ porosityAt u n i
    simp only [bfvAt, porosityAt, uniformDraw, drawAt]
    nlinarith [h0.1, h0.2, h2.1, h2.2]
  · show 0 ≤ ffiAt u n i
    simp only [ffiAt, bfvAt, porosityAt, uniformDraw, drawAt]
    nlinarith [h0.1, h0.2, h2.1, h2.2]

/-- Witness for C5 at `n = 1` with the concrete stream `u0`. -/
theorem C5_witness :
    (∀ i : ℕ, 0 ≤ u0 i ∧ u0 i < 1) ∧
    mkSample ops0 u0 1 0 ∈ generateRun ops0 u0 1 ∧
    ((mkSample ops0 u0 1 0).bfv ≤ (mkSample ops0 u0 1 0).porosity ∧
     (mkSample ops0 u0 1 0).ffi =
       (mkSample ops0 u0 1 0).porosity - (mkSample ops0 u0 1 0).bfv ∧
     0 ≤ (mkSample ops0 u0 1 0).ffi) :=
  ⟨fun _ => ⟨by norm_num [u0], by norm_num [u0]⟩, List.mem_singleton_self _,
   C5_bfv_le_porosity ops0 u0 1 (fun _ => ⟨by norm_num [u0], by norm_num [u0]⟩)
     _ (List.mem_singleton_self _)⟩

/-- Claim C7: the Coates base expression (source line 48) is the very
same expression as the ground-truth base (source line 40); the core and
Coates permeabilities are that common base multiplied by lognormal
noise drawn at distinct stream positions (`4n+i` vs `5n+i`) and then
clamped to [0.01, 10000]. -/
theorem C7_coates_equals_core_base (ops : FloatOps) (u : ℕ → ℚ) (n i : ℕ)
    (hi : i < n) :
    coatesBaseAt u n i = basePermAt u n i ∧
    (mkSample ops u n i).core_permeability_mD =
      clip (basePermAt u n i * ops.lognormal 0 (3/10) (u (4 * n + i))) (1/100) 10000 ∧
    (mkSample ops u n i).coates_permeability_mD =
      clip (basePermAt u n i * ops.lognormal 0 (3/20) (u (5 * n + i))) (1/100) 10000 ∧
    4 * n + i ≠ 5 * n + i :=
  ⟨rfl, rfl, rfl, by omega⟩

/-- Witness for C7 at `n = 1`, `i = 0`. -/
theorem C7_witness :
    (0 : ℕ) < 1 ∧
    (coatesBaseAt u0 1 0 = basePermAt u0 1 0 ∧
     (mkSample ops0 u0 1 0).core_permeability_mD =
       clip (basePermAt u0 1 0 * ops0.lognormal 0 (3/10) (u0 (4 * 1 + 0))) (1/100) 10000 ∧
     (mkSample ops0 u0 1 0).coates_permeability_mD =
       clip (basePermAt u0 1 0 * ops0.lognormal 0 (3/20) (u0 (5 * 1 + 0))) (1/100) 10000 ∧
     4 * 1 + 0 ≠ 5 * 1 + 0) :=
  ⟨by decide, C7_coates_equals_core_base ops0 u0 1 0 (by decide)⟩

theorem linspaceVal_zero (a b : ℚ) (num : ℕ) : linspaceVal a b num 0 = a := by
  simp [linspaceVal]

theorem linspaceVal_strictMono (a b : ℚ) (num : ℕ) (hab : a < b) (h2 : 2 ≤ num)
    {i j : ℕ} (hij : i < j) : linspaceVal a b num i < linspaceVal a b num j := by
  unfold linspaceVal
  have hc : (0 : ℚ) < (num : ℚ) - 1 := by
    have : (2 : ℚ) ≤ (num : ℚ) := by exact_mod_cast h2
    linarith
  have hij' : (i : ℚ) < (j : ℚ) := by exact_mod_cast hij
  have hb : (0 : ℚ) < b - a := by linarith
  have h := div_lt_div_of_pos_right (by nlinarith : (i : ℚ) * (b - a) < (j : ℚ) * (b - a)) hc
  linarith

theorem linspaceVal_last (a b : ℚ) (num : ℕ) (h2 : 2 ≤ num) :
    linspaceVal a b num (num - 1) = b := by
  unfold linspaceVal
  have h1 : 1 ≤ num := le_trans (by norm_num) h2
  have hcast : ((num - 1 : ℕ) : ℚ) = (num : ℚ) - 1 := by push_cast [h1]; ring
  have hc : ((num : ℚ) - 1) ≠ 0 := by
    have : (2 : ℚ) ≤ (num : ℚ) := by exact_mod_cast h2
    intro h; linarith
  rw [hcast]
  field_simp

theorem linspace_getElem (a b : ℚ) (num i : ℕ) (h : i < num) :
    (linspace a b num)[i]? = some (linspaceVal a b num i) := by
  simp [linspace, List.getElem?_map, List.getElem?_range h]

theorem linspace_length (a b : ℚ) (num : ℕ) : (linspace a b num).length = num := by
  simp [linspace]

theorem linspace_pairwise (a b : ℚ) (num : ℕ) (hab : a < b) (h2 : 2 ≤ num) :
    (linspace a b num).Pairwise (· < ·) :=
  List.Pairwise.map _ (fun _ _ h => linspaceVal_strictMono a b num hab h2 h)
    (List.pairwise_lt_range num)

/-- Claim C9: the depth column equals `np.linspace(2000, 2500, n)`
whatever the random draws and float primitives are, and for `n ≥ 2` it
is strictly increasing, starts at exactly 2000, ends at exactly 2500,
and is evenly spaced with step `500 / (n - 1)`. -/
theorem C9_depth_column (ops : FloatOps) (u : ℕ → ℚ) (n : ℕ) (hn : 2 ≤ n) :
    (generateRun ops u n).map Sample.depth_m = linspace 2000 2500 n ∧
    (linspace 2000 2500 n).length = n ∧
    (linspace 2000 2500 n).Pairwise (· < ·) ∧
    (linspace 2000 2500 n)[0]? = some 2000 ∧
    (linspace 2000 2500 n)[n - 1]? = some 2500 ∧
    ∀ i, i + 1 < n →
      linspaceVal 2000 2500 n (i + 1) - linspaceVal 2000 2500 n i =
        500 / ((n : ℚ) - 1) := by
  refine ⟨?_, linspace_length _ _ _, linspace_pairwise _ _ _ (by norm_num) hn, ?_, ?_, ?_⟩
  · simp only [generateRun, linspace, List.map_map]
    rfl
  · rw [linspace_getElem _ _ _ _ (by omega), linspaceVal_zero]
  · rw [linspace_getElem _ _ _ _ (by omega), linspaceVal_last _ _ _ hn]
  · intro i _
    unfold linspaceVal
    push_cast
    ring

/-- Witness for C9 at `n = 2`. -/
theorem C9_witness :
    (2 : ℕ) ≤ 2 ∧
    ((generateRun ops0 u0 2).map Sample.depth_m = linspace 2000 2500 2 ∧
     (linspace 2000 2500 2).length = 2 ∧
     (linspace 2000 2500 2).Pairwise (· < ·) ∧
     (linspace 2000 2500 2)[0]? = some 2000 ∧
     (linspace 2000 2500 2)[2 - 1]? = some 2500 ∧
     ∀ i, i + 1 < 2 →
       linspaceVal 2000 2500 2 (i + 1) - linspaceVal 2000 2500 2 i =
         500 / ((2 : ℚ) - 1)) :=
  ⟨le_refl 2, C9_depth_column ops0 u0 2 (le_refl 2)⟩

theorem le_foldl_max (xs : List ℚ) : ∀ a : ℚ, a ≤ xs.foldl max a := by
  induction xs with
  | nil => intro a; simp
  | cons x xs ih =>
      intro a
      calc a ≤ max a x := le_max_left _ _
        _ ≤ xs.foldl max (max a x) := ih _

theorem mem_le_foldl_max (xs : List ℚ) : ∀ (a x : ℚ), x ∈ xs → x ≤ xs.foldl max a := by
  induction xs with
  | nil => intro a x hx; cases hx
  | cons y ys ih =>
      intro a x hx
      rcases List.mem_cons.mp hx with rfl | h
      · calc x ≤ max a x := le_max_right _ _
          _ ≤ ys.foldl max (max a x) := le_foldl_max _ _
      · exact ih _ _ h

theorem foldl_max_eq_or_mem (xs : List ℚ) :
    ∀ a : ℚ, xs.foldl max a = a ∨ xs.foldl max a ∈ xs := by
  induction xs with
  | nil => intro a; left; rfl
  | cons x xs ih =>
      intro a
      have hfold : (x :: xs).foldl max a = xs.foldl max (max a x) := rfl
      rcases ih (max a x) with h | h
      · rcases max_choice a x with h1 | h1
        · left; rw [hfold, h, h1]
        · right; rw [hfold, h, h1]; exact List.mem_cons_self _ _
      · right; exact List.mem_cons_of_mem _ (by rw [hfold]; exact h)

theorem npMax_mem {l : List ℚ} {m : ℚ} (h : npMax l = some m) : m ∈ l := by
  cases l with
  | nil => cases h
  | cons x xs =>
      simp only [npMax, Option.some.injEq] at h
      rcases foldl_max_eq_or_mem xs x with h' | h'
      · rw [← h, h']; exact List.mem_cons_self _ _
      · rw [← h]; exact List.mem_cons_of_mem _ h'

theorem le_npMax {l : List ℚ} {m : ℚ} (h : npMax l = some m) :
    ∀ x ∈ l, x ≤ m := by
  cases l with
  | nil => cases h
  | cons y ys =>
      simp only [npMax, Option.some.injEq] at h
      intro x hx
      rcases List.mem_cons.mp hx with rfl | hmem
      · rw [← h]; exact le_foldl_max _ _
      · rw [← h]; exact mem_le_foldl_max _ _ _ hmem

theorem npMax_of_ne_nil {l : List ℚ} (h : l ≠ []) : ∃ m, npMax l = some m := by
  cases l with
  | nil => exact absurd rfl h
  | cons x xs => exact ⟨xs.foldl max x, rfl⟩

theorem npMax_eq_one {l : List ℚ} (h1 : (1 : ℚ) ∈ l) (hle : ∀ x ∈ l, x ≤ 1) :
    npMax l = some 1 := by
  obtain ⟨m, hm⟩ := npMax_of_ne_nil (List.ne_nil_of_mem h1)
  have hmem := npMax_mem hm
  have := le_npMax hm 1 h1
  have := hle m hmem
  rw [hm]
  congr 1
  linarith

/-- Claim C4: `generate_t2_distribution(n_bins)` fails (numpy raises,
realizing the spec's `DomainError`) exactly when `n_bins < 1`, and for
every `n_bins ≥ 1` it succeeds with `n_bins` times and `n_bins`
amplitudes. -/
theorem C4_t2_domain (ops : FloatOps) (n : ℤ) :
    (n < 1 → generate_t2_distribution ops n = .error .domainError) ∧
    (1 ≤ n → ∃ times amps, generate_t2_distribution ops n = .ok (times, amps) ∧
      (times.length : ℤ) = n ∧ (amps.length : ℤ) = n) := by
  constructor
  · intro hlt
    by_cases hneg : n < 0
    · simp [generate_t2_distribution, hneg]
    · have h0 : n = 0 := by omega
      subst h0
      simp [generate_t2_distribution, linspace, npMax]
  · intro hge
    have hneg : ¬ n < 0 := by omega
    have hlen : ((linspace (-1) 4 n.toNat).map ops.pow10).length = n.toNat := by
      simp [linspace_length]
    have hne : ((linspace (-1) 4 n.toNat).map ops.pow10).map (t2AmplitudeAt ops) ≠ [] := by
      intro hnil
      have := congrArg List.length hnil
      simp only [List.length_map, List.length_nil] at this
      rw [show (linspace (-1) 4 n.toNat).length = n.toNat from linspace_length _ _ _] at this
      omega
    obtain ⟨m, hm⟩ := npMax_of_ne_nil hne
    refine ⟨(linspace (-1) 4 n.toNat).map ops.pow10,
      (((linspace (-1) 4 n.toNat).map ops.pow10).map (t2AmplitudeAt ops)).map (· / m),
      ?_, ?_, ?_⟩
    · simp only [generate_t2_distribution, hneg, if_false]
      rw [hm]
    · rw [List.length_map, linspace_length]
      omega
    · simp only [List.length_map, linspace_length]
      omega

/-- Witness for C4: failure at `n_bins = 0`, success at `n_bins = 3`. -/
theorem C4_witness :
    ((0 : ℤ) < 1 ∧ generate_t2_distribution ops0 0 = .error .domainError) ∧
    ((1 : ℤ) ≤ 3 ∧ ∃ times amps, generate_t2_distribution ops0 3 = .ok (times, amps) ∧
      (times.length : ℤ) = 3 ∧ (amps.length : ℤ) = 3) :=
  ⟨⟨by norm_num, (C4_t2_domain ops0 0).1 (by norm_num)⟩,
   ⟨by norm_num, (C4_t2_domain ops0 3).2 (by norm_num)⟩⟩

/-- Claim C8: for `n_bins ≥ 2` the T2 distribution has amplitudes with
maximum exactly 1 (normalization divides by the maximum, which is
positive since `np.exp` is positive) and times strictly increasing from
`10^(-1) = 0.1` to `10^4 = 10000` ms (as `10 ** x` is strictly
monotone). -/
theorem C8_t2_shape (ops : FloatOps) (n : ℤ) (h2 : 2 ≤ n)
    (hmono : StrictMono ops.pow10) (hlo : ops.pow10 (-1) = 1/10)
    (hhi : ops.pow10 4 = 10000) (hpos : ∀ x, 0 < ops.fexp x) :
    ∃ times amps, generate_t2_distribution ops n = .ok (times, amps) ∧
      npMax amps = some 1 ∧ times.Pairwise (· < ·) ∧
      times[0]? = some (1/10) ∧ times[n.toNat - 1]? = some 10000 := by
  have hneg : ¬ n < 0 := by omega
  have hk : 2 ≤ n.toNat := by omega
  set k := n.toNat with hkdef
  set t := (linspace (-1) 4 k).map ops.pow10 with htdef
  set a := t.map (t2AmplitudeAt ops) with hadef
  have ha_pos : ∀ x ∈ a, 0 < x := by
    intro x hx
    rw [hadef] at hx
    obtain ⟨y, _, rfl⟩ := List.mem_map.mp hx
    have h1 := hpos (-((ops.ln y - ops.ln 3) ^ 2) / (2 * (1/2 : ℚ) ^ 2))
    have h2 := hpos (-((ops.ln y - ops.ln 200) ^ 2) / (2 * (4/5 : ℚ) ^ 2))
    unfold t2AmplitudeAt
    nlinarith
  have hne : a ≠ [] := by
    intro hnil
    have := congrArg List.length hnil
    simp only [hadef, htdef, List.length_map, List.length_nil, linspace_length] at this
    omega
  obtain ⟨m, hm⟩ := npMax_of_ne_nil hne
  have hm_mem := npMax_mem hm
  have hm_pos : 0 < m := ha_pos m hm_mem
  refine ⟨t, a.map (· / m), ?_, ?_, ?_, ?_, ?_⟩
  · simp only [generate_t2_distribution, hneg, if_false]
    rw [← hkdef, ← htdef, ← hadef, hm]
  · refine npMax_eq_one ?_ ?_
    · exact List.mem_map.mpr ⟨m, hm_mem, div_self (ne_of_gt hm_pos)⟩
    · intro x hx
      obtain ⟨y, hy, rfl⟩ := List.mem_map.mp hx
      exact (div_le_one hm_pos).mpr (le_npMax hm y hy)
  · exact List.Pairwise.map _ (fun _ _ h => hmono h)
      (linspace_pairwise _ _ _ (by norm_num) hk)
  · rw [htdef, List.getElem?_map, linspace_getElem _ _ _ _ (by omega)]
    simp only [Option.map_some']
    rw [linspaceVal_zero, hlo]
  · rw [htdef, List.getElem?_map, linspace_getElem _ _ _ _ (by omega)]
    simp only [Option.map_some']
    rw [linspaceVal_last _ _ _ hk, hhi]

/-- Witness for C8 at `n_bins = 2` with the concrete primitives `ops0`
(whose `pow10` is strictly monotone with the required endpoint values
and whose `fexp` is everywhere positive). -/
theorem C8_witness :
    ((2 : ℤ) ≤ 2 ∧ StrictMono ops0.pow10 ∧ ops0.pow10 (-1) = 1/10 ∧
      ops0.pow10 4 = 10000 ∧ ∀ x, 0 < ops0.fexp x) ∧
    (∃ times amps, generate_t2_distribution ops0 2 = .ok (times, amps) ∧
      npMax amps = some 1 ∧ times.Pairwise (· < ·) ∧
      times[0]? = some (1/10) ∧ times[(2 : ℤ).toNat - 1]? = some 10000) :=
  ⟨⟨le_refl 2, fun a b hab => by dsimp only [ops0]; nlinarith,
    by norm_num [ops0], by norm_num [ops0], fun x => by dsimp only [ops0]; positivity⟩,
   C8_t2_shape ops0 2 (le_refl 2) (fun a b hab => by dsimp only [ops0]; nlinarith)
     (by norm_num [ops0]) (by norm_num [ops0]) (fun x => by dsimp only [ops0]; positivity)⟩

/-- Claim C1: constructing a generator (which seeds the global stream),
generating a dataset, then constructing a second generator with the same
`sample_count` and `random_seed` (which re-seeds the global stream to
the same point) and generating again yields an identical dataset, for
every seed-to-stream model and every float-primitive model. -/
theorem C1_determinism (ops : FloatOps) (streamOf : ℤ → ℕ → ℚ) (n : ℕ)
    (seed : ℤ) (g0 : ℕ → ℚ) (_hn : 0 < n) :
    let pA := initGenerator streamOf n seed g0
    let dA := generateData ops pA.1 pA.2
    let pB := initGenerator streamOf n seed dA.2
    let dB := generateData ops pB.1 pB.2
    dA.1 = dB.1 := rfl

/-- Witness for C1 at `n = 1`, `seed = 5`. -/
theorem C1_witness :
    (0 : ℕ) < 1 ∧
    (let pA := initGenerator streamOf0 1 5 zeroStream
     let dA := generateData ops0 pA.1 pA.2
     let pB := initGenerator streamOf0 1 5 dA.2
     let dB := generateData ops0 pB.1 pB.2
     dA.1 = dB.1) :=
  ⟨Nat.one_pos, C1_determinism ops0 streamOf0 1 5 zeroStream Nat.one_pos⟩

theorem wellLoop_eq (ops : FloatOps) (streamOf : ℤ → ℕ → ℚ) (gen : Generator) :
    ∀ (k i : ℕ) (g : ℕ → ℚ),
      (wellLoop ops streamOf gen k i g).1 =
      (List.range k).map (fun j => ("Well_" ++ toString (i + j),
        generateRun ops (streamOf (42 + ((i + j : ℕ) : ℤ))) gen.n_samples)) := by
  intro k
  induction k with
  | zero => intro i g; rfl
  | succ k ih =>
      intro i g
      rw [List.range_succ_eq_map, List.map_cons, List.map_map]
      show ("Well_" ++ toString i,
          generateRun ops (streamOf (42 + (i : ℤ))) gen.n_samples) ::
            (wellLoop ops streamOf gen k (i + 1) _).1 = _
      rw [ih (i + 1)]
      refine congrArg₂ _ ?_ ?_
      · simp
      · refine List.map_congr_left fun j _ => ?_
        have h : i + 1 + j = i + (j + 1) := by omega
        simp only [Function.comp, Nat.succ_eq_add_one, h]

/-- Amendment of claim C2: `generate_well_data(n_wells)` returns exactly
`n_wells` datasets keyed `"Well_1"` … `"Well_<n_wells>"`, where the
dataset of well `i` is the single-well generation seeded with the fixed
constant `42 + i` — independent of the `random_seed` the generator was
constructed with (it coincides with `base_seed + i` only when the base
seed is 42). -/
theorem C2_amended_wells (ops : FloatOps) (streamOf : ℤ → ℕ → ℚ) (n : ℕ)
    (seed : ℤ) (wells : ℕ) (g0 : ℕ → ℚ) :
    (generate_well_data ops streamOf (initGenerator streamOf n seed g0).1 wells
        (initGenerator streamOf n seed g0).2).1 =
      (List.range wells).map (fun k => ("Well_" ++ toString (k + 1),
        generateRun ops (streamOf (42 + ((k + 1 : ℕ) : ℤ))) n)) := by
  have h := wellLoop_eq ops streamOf ⟨n⟩ wells 1 (streamOf seed)
  refine h.trans (List.map_congr_left fun j _ => ?_)
  have : 1 + j = j + 1 := by omega
  rw [this]

/-- Counterexample to claim C2 as stated: with construction seed 0, the
dataset of `Well_1` is NOT the single-well generation seeded with
`base_seed + 1 = 1` (the code reseeds with `42 + 1 = 43` instead), and
with construction seed 43 the dataset of `Well_1` EQUALS the single-well
generation seeded with the base seed itself, contradicting "every well's
dataset differs … from a single-well `generate_dataset()` call seeded
with `base_seed`". -/
theorem C2_counterexample :
    ((generate_well_data ops0 streamOf0 (initGenerator streamOf0 1 0 zeroStream).1 1
        (initGenerator streamOf0 1 0 zeroStream).2).1 ≠
      [("Well_1",
        (generateData ops0 (initGenerator streamOf0 1 (0 + 1) zeroStream).1
          (initGenerator streamOf0 1 (0 + 1) zeroStream).2).1)]) ∧
    ((generate_well_data ops0 streamOf0 (initGenerator streamOf0 1 43 zeroStream).1 1
        (initGenerator streamOf0 1 43 zeroStream).2).1 =
      [("Well_1",
        (generateData ops0 (initGenerator streamOf0 1 43 zeroStream).1
          (initGenerator streamOf0 1 43 zeroStream).2).1)]) := by
  constructor
  · intro h
    have h' := wellLoop_eq ops0 streamOf0 ⟨1⟩ 1 1 (streamOf0 0)
    rw [show (generate_well_data ops0 streamOf0 (initGenerator streamOf0 1 0 zeroStream).1 1
          (initGenerator streamOf0 1 0 zeroStream).2).1
        = (wellLoop ops0 streamOf0 ⟨1⟩ 1 1 (streamOf0 0)).1 from rfl, h'] at h
    simp only [show List.range 1 = [0] from rfl, List.map_cons, List.map_nil] at h
    injection h with hx hnil
    have hdata := congrArg Prod.snd hx
    have hp := congrArg (fun l => l.map Sample.porosity) hdata
    simp only [generateData, initGenerator, generateRun, show List.range 1 = [0] from rfl,
      List.map_cons, List.map_nil] at hp
    injection hp with hp1 hp2
    norm_num [mkSample, porosityAt, uniformDraw, drawAt, streamOf0] at hp1
  · rfl

/-- Claim C10: the result of `generate_well_data` is independent of the
`random_seed` used at construction, because the loop body reseeds the
shared stream with the fixed constant `42 + well_index` before each
well's generation. -/
theorem C10_wells_seed_independent (ops : FloatOps) (streamOf : ℤ → ℕ → ℚ)
    (n : ℕ) (s1 s2 : ℤ) (wells : ℕ) (g0 g0' : ℕ → ℚ) :
    (generate_well_data ops streamOf (initGenerator streamOf n s1 g0).1 wells
        (initGenerator streamOf n s1 g0).2).1 =
    (generate_well_data ops streamOf (initGenerator streamOf n s2 g0').1 wells
        (initGenerator streamOf n s2 g0').2).1 :=
  (wellLoop_eq ops streamOf ⟨n⟩ wells 1 (streamOf s1)).trans
    (wellLoop_eq ops streamOf ⟨n⟩ wells 1 (streamOf s2)).symm

/-- Counterexample to claim C3 as stated: on the empty dataset
`calculate_statistics` does not raise — the source body has no `raise`
statement and numpy's reductions yield NaN with warnings — so it does
not produce the `DomainError` the claim requires. -/
theorem C3_counterexample :
    calculate_statistics id id [] ≠ Except.error DomainError.domainError := by
  simp [calculate_statistics]

/-- Amendment of claim C3: `calculate_statistics` performs no input
validation and never raises; for every input dataset (empty or not,
zero ground-truth values or not) it returns a statistics map with
entries for exactly the three models, in source order, and (being a pure
function of its input in this embedding) does not mutate the dataset. -/
theorem C3_amended_total (log10 sqrtQ : ℚ → ℚ) (data : List Sample) :
    ∃ r, calculate_statistics log10 sqrtQ data = .ok r ∧
      r.map Prod.fst = ["Coates", "Timur_Coates", "SDR"] :=
  ⟨_, rfl, rfl⟩
